import Mathlib

/-!
Verification of the go-garminconnect FIT encoder/decoder and the
authenticated API client, as a shallow embedding of the Go sources.

Bytes are modelled as `Nat` (values < 256 where produced by the source's
byte operations), byte streams as `List Nat`, times as `Int` nanoseconds
(Go's `time.Time` comparisons are nanosecond-precision), and the in-memory
seekable sink (`io.WriteSeeker` backed by a buffer, as the repository's
tests use) as a byte list plus a position.
-/

namespace Garmin

/-! ### CRC-16, from `FitEncoder.updateCRC` (src/internal/fit/encoder.go) -/

/-- The 16-entry nibble table of `updateCRC`. -/
def crcTable : List Nat :=
  [0x0000, 0xCC01, 0xD801, 0x1400, 0xF001, 0x3C00, 0x2800, 0xE401,
   0xA001, 0x6C00, 0x7800, 0xB401, 0x5000, 0x9C01, 0x8801, 0x4400]

/-- One byte step of `updateCRC`: lower nibble, then upper nibble, exactly
as the Go loop body computes on `uint16`. All intermediate values stay
below 2^16, so plain `Nat` bit operations agree with `uint16` ones. -/
def crcStep (crc b : Nat) : Nat :=
  let tmp := crcTable.getD (crc &&& 0xF) 0
  let crc1 := (crc >>> 4) &&& 0x0FFF
  let crc2 := crc1 ^^^ tmp ^^^ crcTable.getD (b &&& 0xF) 0
  let tmp2 := crcTable.getD (crc2 &&& 0xF) 0
  let crc3 := (crc2 >>> 4) &&& 0x0FFF
  crc3 ^^^ tmp2 ^^^ crcTable.getD ((b >>> 4) &&& 0xF) 0

/-- `updateCRC` folded over a byte slice, starting from a given running CRC. -/
def updateCRC (crc : Nat) (data : List Nat) : Nat :=
  data.foldl crcStep crc

/-! ### The seekable in-memory sink -/

/-- An `io.WriteSeeker` over an in-memory buffer: the byte list and the
current write position. Its writes and seeks always succeed. -/
structure BufState where
  data : List Nat
  pos : Nat
deriving DecidableEq

/-- Write `p` at the current position, overwriting existing bytes and
extending the buffer as needed; returns the new state and the byte count. -/
def writeBytes (b : BufState) (p : List Nat) : BufState × Nat :=
  (⟨b.data.take b.pos ++ List.replicate (b.pos - b.data.length) 0
      ++ p ++ b.data.drop (b.pos + p.length),
    b.pos + p.length⟩, p.length)

/-- `Seek(off, io.SeekStart)`. -/
def seekTo (b : BufState) (off : Nat) : BufState :=
  ⟨b.data, off⟩

/-- Little-endian 16-bit encoding (`binary.LittleEndian.PutUint16`). -/
def le16 (n : Nat) : List Nat := [n % 256, n / 256 % 256]

/-- Little-endian 32-bit encoding of `uint32 n`
(`binary.LittleEndian.PutUint32`); depends only on `n % 2^32`. -/
def le32 (n : Nat) : List Nat :=
  [n % 256, n / 256 % 256, n / 65536 % 256, n / 16777216 % 256]

/-! ### FitEncoder (src/internal/fit/encoder.go) -/

/-- The mutable fields of `FitEncoder` (the sink is threaded separately). -/
structure FitEnc where
  crc : Nat
  dataSize : Nat
  startPos : Nat
deriving DecidableEq

/-- The 14-byte placeholder header written by `NewFitEncoder`. -/
def fitHeader0 : List Nat :=
  [14, 0x10, 0x00, 0x2D, 0x00, 0x00, 0x00, 0x00, 0x2E, 0x46, 0x49, 0x54, 0x00, 0x00]

/-- `NewFitEncoder`: record the start position, write the placeholder
header, accumulate it into the running CRC. -/
def newFitEncoder (b : BufState) : FitEnc × BufState :=
  let startPos := b.pos
  let (b1, _) := writeBytes b fitHeader0
  (⟨updateCRC 0 fitHeader0, 0, startPos⟩, b1)

/-- `FitEncoder.Write` against the in-memory sink (whose writes succeed):
write to the sink, then update the running CRC and the data-size counter.
The returned `Option String` is the Go error, `none` here because the
in-memory sink's `Write` cannot fail. -/
def fitWrite (e : FitEnc) (b : BufState) (p : List Nat) :
    FitEnc × BufState × Nat × Option String :=
  let (b1, n) := writeBytes b p
  (⟨updateCRC e.crc p, e.dataSize + n, e.startPos⟩, b1, n, none)

/-- `FitEncoder.Write` with the sink's outcome abstracted: the sink's
`Write(p)` returned `(n, err)`. On an error the method returns at once;
the CRC and counter updates happen only on the success path. -/
def fitWriteGen (e : FitEnc) (p : List Nat) (n : Nat) (sinkErr : Option String) :
    FitEnc × Nat × Option String :=
  match sinkErr with
  | some err => (e, n, some err)
  | none => (⟨updateCRC e.crc p, e.dataSize + n, e.startPos⟩, n, none)

/-- The 12 finalized header bytes that `Close` rebuilds (size, protocol,
profile version, the four data-size bytes, ".FIT"). -/
def closeHeader (dsb : List Nat) : List Nat :=
  [14, 0x10, 0x00, 0x2D] ++ dsb ++ [0x2E, 0x46, 0x49, 0x54]

/-- `FitEncoder.Close` against the in-memory sink: save the position,
backfill the data-size field, recompute the header CRC from a zeroed
running CRC (`e.crc = 0`) over the 12 finalized header bytes, write it
into the header's CRC slot, then seek to the end and write `e.crc` — which
at that point holds the just-computed header CRC — as the file CRC.
Errors (`Option String`) arise only from sink operations, which the
in-memory sink never fails; there is no already-closed check in the source. -/
def fitClose (e : FitEnc) (b : BufState) : FitEnc × BufState × Option String :=
  let currentPos := b.pos
  let dsb := le32 e.dataSize
  let (b2, _) := writeBytes (seekTo b (e.startPos + 4)) dsb
  let headerCRC := updateCRC 0 (closeHeader dsb)
  let e1 : FitEnc := ⟨headerCRC, e.dataSize, e.startPos⟩
  let (b4, _) := writeBytes (seekTo b2 (e.startPos + 12)) (le16 headerCRC)
  let (b6, _) := writeBytes (seekTo b4 currentPos) (le16 e1.crc)
  (e1, b6, none)

/-- The full encode pipeline on a fresh buffer:
`NewFitEncoder`, one `Write` of `d`, `Close`; the produced bytes. -/
def encodeFit (d : List Nat) : List Nat :=
  let (e, b) := newFitEncoder ⟨[], 0⟩
  let (e1, b1, _, _) := fitWrite e b d
  let (_, b2, _) := fitClose e1 b1
  b2.data

/-- The header CRC that `Close` computes for payload `d`:
CRC-16 over the 12 finalized header bytes. -/
def hdrCRC (d : List Nat) : Nat :=
  updateCRC 0 (closeHeader (le32 d.length))

/-- The finalized 14-byte header (including its header-CRC field). -/
def finalHeader (d : List Nat) : List Nat :=
  closeHeader (le32 d.length) ++ le16 (hdrCRC d)

/-- The file CRC as the spec describes it: CRC-16 over every byte written —
the 14-byte finalized header plus all data bytes — excluding the file-CRC
field itself. This definition follows the spec's words, for comparison with
what the encoder actually writes. -/
def specFileCRC (d : List Nat) : Nat :=
  updateCRC 0 (finalHeader d ++ d)

/-! ### FIT decoder (src/internal/fit/decoder.go) -/

/-- Little-endian 32-bit decoding of the first four bytes. -/
def u32ofLE (bs : List Nat) : Nat :=
  bs.getD 0 0 + 256 * bs.getD 1 0 + 65536 * bs.getD 2 0 + 16777216 * bs.getD 3 0

/-- Little-endian unsigned 64-bit decoding of the first eight bytes. -/
def u64ofLE (bs : List Nat) : Nat :=
  bs.getD 0 0 + 256 * bs.getD 1 0 + 65536 * bs.getD 2 0 + 16777216 * bs.getD 3 0
    + 4294967296 * bs.getD 4 0 + 1099511627776 * bs.getD 5 0
    + 281474976710656 * bs.getD 6 0 + 72057594037927936 * bs.getD 7 0

/-- Little-endian `int64` decoding (two's complement). -/
def i64ofLE (bs : List Nat) : Int :=
  let n := u64ofLE bs
  if n < 9223372036854775808 then (n : Int) else (n : Int) - 18446744073709551616

/-- The decoder's `FileHeader` as `binary.Read` lays it out over 14 bytes:
size, protocol, a 4-byte profile, a little-endian `uint32` data size, a
4-byte signature. (Note this layout differs from the 14 bytes the encoder
writes, where the profile version occupies only 2 bytes.) -/
structure FileHeader where
  size : Nat
  protocol : Nat
  profile : List Nat
  dataSize : Nat
  signature : List Nat
deriving DecidableEq

/-- Read the decoder's `FileHeader` from the stream
(`binary.Read(d.r, binary.LittleEndian, &header)`); errors when fewer than
14 bytes are available. -/
def parseFileHeader (input : List Nat) : Except String (FileHeader × List Nat) :=
  if input.length < 14 then .error "EOF"
  else
    .ok (⟨input.getD 0 0, input.getD 1 0,
          (input.drop 2).take 4,
          u32ofLE ((input.drop 6).take 4),
          (input.drop 10).take 4⟩, input.drop 14)

/-- `activityType`. -/
def activityType (t : Nat) : String :=
  if t = 1 then "Running"
  else if t = 2 then "Cycling"
  else if t = 3 then "Swimming"
  else "Unknown"

/-- The decoder's `Activity`. `TotalDistance` is a `float32` in the source;
its raw little-endian bits are kept here (the float conversion plays no
role in any claim). -/
structure Activity where
  type : String
  startTime : Int
  distanceBits : Nat
  duration : Nat
deriving DecidableEq

/-- The decoder's record-scanning loop: read one byte per iteration until
EOF; at a `0x21` record header, read the 17-byte activity record
(`uint8`, `int64`, `float32` bits, `uint32`, little-endian) and stop. -/
def parseLoop (a : Activity) : List Nat → Except String Activity
  | [] => .ok a
  | b :: rest =>
    if b = 0x21 then
      if rest.length < 17 then .error "unexpected EOF"
      else
        .ok ⟨activityType (rest.getD 0 0),
             i64ofLE ((rest.drop 1).take 8),
             u32ofLE ((rest.drop 9).take 4),
             u32ofLE ((rest.drop 13).take 4)⟩
    else parseLoop a rest

/-- `Decoder.Parse`: read the `FileHeader`, reject when
`header.Protocol != 2` with "unsupported FIT protocol version", then scan
for the activity record. -/
def parseFit (input : List Nat) : Except String Activity :=
  match parseFileHeader input with
  | .error e => .error e
  | .ok (header, rest) =>
    if header.protocol ≠ 2 then .error "unsupported FIT protocol version"
    else parseLoop ⟨"", 0, 0, 0⟩ rest

/-! ### Sessions (src/internal/auth/garth/garth_auth.go) -/

/-- `garth.Session`; `expiresAt` in nanoseconds. -/
structure Session where
  oauth1Token : String
  oauth1Secret : String
  oauth2Token : String
  expiresAt : Int
deriving DecidableEq

/-- `Session.IsExpired` at an explicit current time:
`time.Now().After(s.ExpiresAt)` — strictly after. -/
def isExpired (s : Session) (now : Int) : Bool :=
  decide (s.expiresAt < now)

/-- Eight hours in nanoseconds (`8 * time.Hour`). -/
def eightHoursNs : Int := 28800000000000

/-! ### Authenticated API client (the `api` package with session
management: `Client.Get`, `Client.Post`, `Client.refreshTokenIfNeeded`) -/

/-- Observable effects of a client call, in order: a token-refresh attempt
(`auth.RefreshToken`), or an HTTP request against a path carrying the
client's current `Authorization` header. -/
inductive Ev where
  | refreshAttempt
  | request (path : String) (authHeader : String)
deriving DecidableEq

/-- The HTTP outcome the environment supplies for the one request a call
makes: a transport error, or a response with a status code and resty's
`resp.Error()` object presence (always absent in this code, which never
calls `SetError`). -/
inductive HttpResult where
  | transport (msg : String)
  | resp (status : Nat) (hasErrObj : Bool)
deriving DecidableEq

/-- The call's environment: the authenticator's `RefreshToken` behaviour,
the outcome of `Session.Save`, the HTTP outcome, and the message
`handleAPIError` would produce for that response (its JSON body parsing is
irrelevant to every claim, so it is abstracted to this one string). -/
structure Env where
  refreshToken : String → String → Except String String
  saveResult : Option String
  response : HttpResult
  apiErrMsg : String

/-- The client's mutable state: held session, whether an authenticator is
configured (`c.auth != nil`), the session path, and the currently set
`Authorization` header. -/
structure ClientState where
  session : Option Session
  authPresent : Bool
  sessionPath : String
  authHeader : String
deriving DecidableEq

/-- `Client.refreshTokenIfNeeded` at time `now`: a no-op when the session
is nil or not expired; otherwise one `RefreshToken` attempt, updating the
session, its expiry, and the `Authorization` header on success, then
persisting when a session path is set. Returns the new state, the Go
error, and the effect trace. -/
def refreshTokenIfNeeded (env : Env) (c : ClientState) (now : Int) :
    ClientState × Option String × List Ev :=
  match c.session with
  | none => (c, none, [])
  | some s =>
    if ¬ isExpired s now then (c, none, [])
    else if ¬ c.authPresent then
      (c, some "authenticator not configured for refresh", [])
    else
      match env.refreshToken s.oauth1Token s.oauth1Secret with
      | .error e => (c, some ("token refresh failed: " ++ e), [.refreshAttempt])
      | .ok newTok =>
        let c2 : ClientState :=
          ⟨some ⟨s.oauth1Token, s.oauth1Secret, newTok, now + eightHoursNs⟩,
           c.authPresent, c.sessionPath, "Bearer " ++ newTok⟩
        if c.sessionPath = "" then (c2, none, [.refreshAttempt])
        else
          match env.saveResult with
          | some e =>
            (c2, some ("failed to save refreshed session: " ++ e), [.refreshAttempt])
          | none => (c2, none, [.refreshAttempt])

/-- `Client.Get`: refresh if needed (aborting on its error), then issue the
request; on HTTP 401 clear the held session and return the
reauthentication error; otherwise surface `handleAPIError` for 4xx/5xx. -/
def clientGet (env : Env) (c : ClientState) (now : Int) (path : String) :
    ClientState × Option String × List Ev :=
  match refreshTokenIfNeeded env c now with
  | (c1, some e, evs) => (c1, some e, evs)
  | (c1, none, evs) =>
    let evs := evs ++ [.request path c1.authHeader]
    match env.response with
    | .transport m => (c1, some m, evs)
    | .resp st errObj =>
      if (199 < st ∧ st < 300) ∧ errObj then (c1, some env.apiErrMsg, evs)
      else if st = 401 then
        (⟨none, c1.authPresent, c1.sessionPath, c1.authHeader⟩,
         some "token expired, please reauthenticate", evs)
      else if 400 ≤ st then (c1, some env.apiErrMsg, evs)
      else (c1, none, evs)

/-- `Client.Post`: issues the request directly — no `refreshTokenIfNeeded`
call and no 401 session-clearing exist on this path in the source. -/
def clientPost (env : Env) (c : ClientState) (path : String) :
    ClientState × Option String × List Ev :=
  let evs := [Ev.request path c.authHeader]
  match env.response with
  | .transport m => (c, some m, evs)
  | .resp st errObj =>
    if (199 < st ∧ st < 300) ∧ errObj then (c, some env.apiErrMsg, evs)
    else if 400 ≤ st then (c, some env.apiErrMsg, evs)
    else (c, none, evs)

/-! ### Login and MFA (src/internal/auth/garth/garth_auth.go) -/

/-- Drops `pat` from the front of `s` when `pat` starts `s`. -/
def dropStart : List Char → List Char → Option (List Char)
  | [], s => some s
  | _ :: _, [] => none
  | p :: ps, c :: cs => if p = c then dropStart ps cs else none

/-- Tries the regex shape `pat([^"]+)"` at the start of `s`: `pat` must
start `s`, followed by at least one non-quote character and a closing
quote; returns the capture. -/
def capAt (pat s : List Char) : Option (List Char) :=
  match dropStart pat s with
  | none => none
  | some rest =>
    let cap := rest.takeWhile (fun c => c ≠ '"')
    if cap.isEmpty then none
    else
      match rest.drop cap.length with
      | c :: _ => if c = '"' then some cap else none
      | [] => none

/-- First capture of `pat([^"]+)"` anywhere in the string, trying each
start position left to right. -/
def findCap (pat : List Char) : List Char → Option (List Char)
  | [] => none
  | c :: rest =>
    match capAt pat (c :: rest) with
    | some cap => some cap
    | none => findCap pat rest

/-- Substring test (`strings.Contains`). -/
def hasSub (pat : List Char) : List Char → Bool
  | [] => (dropStart pat []).isSome
  | c :: rest => (dropStart pat (c :: rest)).isSome || hasSub pat rest

/-- `extractVerifierFromResponse`: the regex
`name="oauth_verifier" value="([^"]+)"` against the HTML; the same
"verifier not found in response" error whether the page is a rejection or
simply malformed. -/
def extractVerifierFromResponse (html : String) : Except String String :=
  match findCap ("name=\"oauth_verifier\" value=\"").toList html.toList with
  | some cap => .ok (String.mk cap)
  | none => .error "verifier not found in response"

/-- The `mfaContext` extraction of `authenticate`:
regex `name="mfaContext" value="([^"]+)"`. -/
def mfaContextOf (html : String) : Option String :=
  (findCap ("name=\"mfaContext\" value=\"").toList html.toList).map String.mk

/-- `GarthAuthenticator.authenticate` with the three network/prompter
outcomes supplied by the environment: the sign-in response, the
`MFAPrompter.GetMFACode` result, and the `verifyMFA` response body the
provider returns for the submitted code. -/
def authenticate (loginResult promptResult mfaResult : Except String String) :
    Except String String :=
  match loginResult with
  | .error e => .error ("login request failed: " ++ e)
  | .ok body =>
    if hasSub ("mfa-required").toList body.toList then
      match mfaContextOf body with
      | none => .error "MFA required but no context found"
      | some _ =>
        match promptResult with
        | .error e => .error ("MFA prompt failed: " ++ e)
        | .ok _ =>
          match mfaResult with
          | .error e => .error ("MFA submission failed: " ++ e)
          | .ok mfaBody => extractVerifierFromResponse mfaBody
    else extractVerifierFromResponse body

/-- `GarthAuthenticator.Login` as Go's `(*Session, error)` pair.
`getRequestToken` can fail only on its network call (it then returns the
hardcoded temp token pair); `getAccessToken` and `getOAuth2Token` are
hardcoded successes in the source, so a found verifier always yields the
established session with an 8-hour expiry; `Save` runs only when a session
path is set and can add an error alongside the session. -/
def loginRun (reqTokenResult : Except String Unit)
    (loginResult promptResult mfaResult : Except String String)
    (sessionPath : String) (saveResult : Option String) (now : Int) :
    Option Session × Option String :=
  match reqTokenResult with
  | .error e => (none, some ("failed to get request token: " ++ e))
  | .ok _ =>
    match authenticate loginResult promptResult mfaResult with
    | .error e => (none, some ("authentication failed: " ++ e))
    | .ok _ =>
      let s : Session :=
        ⟨"access_token", "access_secret", "oauth2_access_token", now + eightHoursNs⟩
      if sessionPath = "" then (some s, none)
      else
        match saveResult with
        | some e => (some s, some ("failed to save session: " ++ e))
        | none => (some s, none)

/-! ### Concrete fixtures used by the counterexamples and witnesses -/

/-- An encoder that has been opened on a fresh buffer, fed `[1, 2, 3]`, and
closed once. -/
def encAfterFirstClose : FitEnc × BufState × Option String :=
  fitClose (fitWrite (newFitEncoder ⟨[], 0⟩).1 (newFitEncoder ⟨[], 0⟩).2 [1, 2, 3]).1
    (fitWrite (newFitEncoder ⟨[], 0⟩).1 (newFitEncoder ⟨[], 0⟩).2 [1, 2, 3]).2.1

/-- A session already expired at time 100. -/
def sExpired : Session := ⟨"t1", "s1", "t2", 0⟩

/-- A client holding the expired session, with an authenticator configured
and no session path. -/
def cExpired : ClientState := ⟨some sExpired, true, "", "Bearer t2"⟩

/-- An environment whose token refresh always fails and whose HTTP response
is a plain 200. -/
def envRefreshDown : Env := ⟨fun _ _ => .error "refresh down", none, .resp 200 false, "api error"⟩

/-- A session still valid at time 100. -/
def sValid : Session := ⟨"t1", "s1", "t2", 1000⟩

/-- A client holding the valid session. -/
def cValid : ClientState := ⟨some sValid, true, "", "Bearer t2"⟩

/-- An environment answering HTTP 401. -/
def env401 : Env := ⟨fun _ _ => .error "down", none, .resp 401 false, "api error"⟩

/-- An environment answering a plain HTTP 200. -/
def env200 : Env := ⟨fun _ _ => .error "down", none, .resp 200 false, "api error"⟩

/-- A client whose held session is nil (as after a 401 cleared it). -/
def cNoSession : ClientState := ⟨none, true, "", "Bearer t2"⟩

/-- A sign-in response page signalling MFA with an mfaContext. -/
def mfaLoginPage : String :=
  "<form><input name=\"mfaContext\" value=\"ctx42\"> mfa-required </form>"

/-- A verifyMFA response for an accepted code: carries the verifier. -/
def mfaAcceptPage : String := "<input name=\"oauth_verifier\" value=\"ver99\">"

/-- A verifyMFA response for a rejected code: no verifier. -/
def mfaRejectPage : String := "<p>Invalid MFA code entered</p>"

/-- A malformed (shape-error) response: no verifier either. -/
def malformedPage : String := "<html>unexpected shape</html>"

/-- The byte pattern of the verifier regex. -/
def verifierPat : List Char := ("name=\"oauth_verifier\" value=\"").toList

/-! ### Buffer lemmas and the shape of the encoded output -/

/-- Writing at the end of the buffer appends. -/
theorem writeBytes_end (l p : List Nat) :
    writeBytes ⟨l, l.length⟩ p = (⟨l ++ p, l.length + p.length⟩, p.length) := by
  have h1 : l.drop (l.length + p.length) = [] :=
    List.drop_eq_nil_of_le (Nat.le_add_right _ _)
  simp [writeBytes, h1]

/-- Writing inside the first `h.length` bytes of `h ++ d` overwrites within
`h` and leaves `d` untouched. -/
theorem writeBytes_within (h d p : List Nat) (pos : Nat)
    (hp : pos + p.length ≤ h.length) :
    writeBytes ⟨h ++ d, pos⟩ p =
      (⟨(h.take pos ++ p ++ h.drop (pos + p.length)) ++ d, pos + p.length⟩,
       p.length) := by
  have e1 : pos - h.length = 0 := by omega
  have e2 : pos + p.length - h.length = 0 := by omega
  have e3 : pos - (h.length + d.length) = 0 := by omega
  simp [writeBytes, List.take_append_eq_append_take, List.drop_append_eq_append_drop,
    List.length_append, e1, e2, e3]

/-- `Write` on a freshly headered buffer appends the payload and counts it. -/
theorem fitWrite_fresh (C : Nat) (d : List Nat) :
    fitWrite ⟨C, 0, 0⟩ ⟨fitHeader0, 14⟩ d =
      (⟨updateCRC C d, d.length, 0⟩, ⟨fitHeader0 ++ d, 14 + d.length⟩, d.length, none) := by
  have h := writeBytes_end fitHeader0 d
  rw [show fitHeader0.length = 14 from rfl] at h
  simp [fitWrite, h]

/-- What `Close` does to a buffer holding the placeholder header plus the
payload: backfill the data-size bytes, write the recomputed header CRC into
the header, and append that same header CRC again as the file CRC. -/
theorem fitClose_header (C n : Nat) (d : List Nat) :
    fitClose ⟨C, n, 0⟩ ⟨fitHeader0 ++ d, 14 + d.length⟩ =
      (⟨updateCRC 0 (closeHeader (le32 n)), n, 0⟩,
       ⟨((closeHeader (le32 n) ++ le16 (updateCRC 0 (closeHeader (le32 n)))) ++ d)
          ++ le16 (updateCRC 0 (closeHeader (le32 n))), 14 + d.length + 2⟩, none) := by
  have h1 := writeBytes_within fitHeader0 d (le32 n) 4 (by simp [le32, fitHeader0])
  have h2 := writeBytes_within (fitHeader0.take 4 ++ le32 n ++ fitHeader0.drop 8) d
      (le16 (updateCRC 0 (closeHeader (le32 n)))) 12
      (by simp [le16, le32, fitHeader0])
  have h3 := writeBytes_end
      ((closeHeader (le32 n) ++ le16 (updateCRC 0 (closeHeader (le32 n)))) ++ d)
      (le16 (updateCRC 0 (closeHeader (le32 n))))
  rw [show ((closeHeader (le32 n) ++ le16 (updateCRC 0 (closeHeader (le32 n)))) ++ d).length
      = 14 + d.length from by simp [closeHeader, le32, le16]; omega] at h3
  simp [fitClose, seekTo, fitHeader0, le32, le16, closeHeader, h1, h2, h3] at *
  simp [fitClose, seekTo, fitHeader0, le32, le16, closeHeader, h1, h2, h3]

/-- The bytes the pipeline produces: the finalized header, the payload, and
then — as the file CRC — a second copy of the header CRC. -/
theorem encodeFit_eq (d : List Nat) :
    encodeFit d = finalHeader d ++ (d ++ le16 (hdrCRC d)) := by
  have hnew : newFitEncoder ⟨[], 0⟩ =
      (⟨updateCRC 0 fitHeader0, 0, 0⟩, ⟨fitHeader0, 14⟩) := rfl
  simp only [encodeFit, hnew, fitWrite_fresh, fitClose_header, finalHeader, hdrCRC,
    List.append_assoc]

/-- The last two bytes of any encoded file are the header CRC again, not a
CRC over the whole stream: `Close` zeroes the running CRC before
recomputing the header CRC and then writes the clobbered `e.crc` field as
the file CRC. -/
theorem fileCRC_last_two (d : List Nat) :
    (encodeFit d).drop (14 + d.length) = le16 (hdrCRC d) := by
  rw [encodeFit_eq]
  have hfl : (finalHeader d).length = 14 := by simp [finalHeader, closeHeader, le32, le16]
  rw [List.drop_append_eq_append_drop, hfl,
      List.drop_eq_nil_of_le (by omega : (finalHeader d).length ≤ 14 + d.length),
      List.nil_append, show 14 + d.length - 14 = d.length from by omega,
      List.drop_append_eq_append_drop, List.drop_length, Nat.sub_self]
  simp

/-- Helper for C4: with an expired session and a configured authenticator,
the refresh step attempts exactly one refresh, and a failing refresh
surfaces its error without further effects. -/
theorem refresh_expired_trace (env : Env) (c : ClientState) (now : Int) (s : Session)
    (hs : c.session = some s) (hexp : isExpired s now = true)
    (hauth : c.authPresent = true) :
    (refreshTokenIfNeeded env c now).2.2 = [Ev.refreshAttempt] ∧
    (∀ msg, env.refreshToken s.oauth1Token s.oauth1Secret = .error msg →
       refreshTokenIfNeeded env c now =
         (c, some ("token refresh failed: " ++ msg), [Ev.refreshAttempt])) := by
  constructor
  · rcases hr : env.refreshToken s.oauth1Token s.oauth1Secret with msg | tok
    · simp [refreshTokenIfNeeded, hs, hexp, hauth, hr]
    · rcases hsv : env.saveResult with _ | e <;>
        by_cases hsp : c.sessionPath = "" <;>
        simp [refreshTokenIfNeeded, hs, hexp, hauth, hr, hsv, hsp]
  · intro msg hr
    simp [refreshTokenIfNeeded, hs, hexp, hauth, hr]

/-! ### Claim theorems -/

/-- C1: the claim that the 2-byte file CRC appended by `Close` equals the
CRC-16 over every previously written byte (finalized header plus data)
fails on the code: `Close` sets `e.crc = 0`, recomputes the header CRC
over the 12 finalized header bytes, and then writes that value as the
file CRC. At payload `[1]` the appended bytes are the header CRC and
differ from the CRC over header plus data that the claim describes. -/
theorem fileCRC_diverges_from_spec :
    (∀ d : List Nat, (encodeFit d).drop (14 + d.length) = le16 (hdrCRC d)) ∧
    (encodeFit [1]).drop 15 = le16 (hdrCRC [1]) ∧
    (encodeFit [1]).drop 15 ≠ le16 (specFileCRC [1]) :=
  ⟨fileCRC_last_two, by decide, by decide⟩

/-- C2: decoding the encoder's output always fails: the encoder writes
protocol byte `0x10` at offset 1 while `Decoder.Parse` requires protocol
`2`, so `decode(encode(data))` never succeeds, for any payload. -/
theorem roundTrip_decode_always_fails (d : List Nat) :
    parseFit (encodeFit d) = .error "unsupported FIT protocol version" := by
  rw [encodeFit_eq]
  have hlen : (finalHeader d ++ (d ++ le16 (hdrCRC d))).length = d.length + 16 := by
    simp [finalHeader, closeHeader, le32, le16]
  unfold parseFit parseFileHeader
  rw [hlen, if_neg (by omega)]
  simp [finalHeader, closeHeader, le32, le16]

/-- C3 counterexample: on an encoder that was opened, written to, and
closed once — over a sink whose writes and seeks succeed — the first
Close, a second Close, and a Write after Close all return no error,
contradicting the claim that the latter two are errors. The source keeps
no closed flag; its only error paths are sink failures. -/
theorem doubleClose_write_after_close_no_error_example :
    encAfterFirstClose.2.2 = none ∧
    (fitClose encAfterFirstClose.1 encAfterFirstClose.2.1).2.2 = none ∧
    (fitWrite encAfterFirstClose.1 encAfterFirstClose.2.1 [7]).2.2.2 = none :=
  ⟨rfl, rfl, rfl⟩

/-- C3 amended: the encoder keeps no closed state. With a sink whose
operations succeed, a second Close returns no error, and a Write after
Close returns no error and still updates the CRC and data-size counter. -/
theorem close_keeps_no_closed_state (e : FitEnc) (b : BufState) (p : List Nat) :
    (fitClose e b).2.2 = none ∧
    (fitClose (fitClose e b).1 (fitClose e b).2.1).2.2 = none ∧
    (fitWrite (fitClose e b).1 (fitClose e b).2.1 p).2.2.2 = none ∧
    (fitWrite (fitClose e b).1 (fitClose e b).2.1 p).1.dataSize =
      (fitClose e b).1.dataSize + p.length ∧
    (fitWrite (fitClose e b).1 (fitClose e b).2.1 p).1.crc =
      updateCRC (fitClose e b).1.crc p :=
  ⟨rfl, rfl, rfl, rfl, rfl⟩

/-- C4 counterexample: a Post call on a client whose session is expired,
in an environment whose refresh fails, performs no refresh attempt at all,
issues the HTTP request anyway, and returns no error — contradicting the
claim that every Get or Post with an expired session performs exactly one
refresh before the request and aborts without a request when refresh
fails. -/
theorem post_skips_refresh_example :
    isExpired sExpired 100 = true ∧
    clientPost envRefreshDown cExpired "/activities" =
      (cExpired, none, [Ev.request "/activities" "Bearer t2"]) :=
  ⟨by decide, by decide⟩

/-- C4 amended: only `Get` refreshes. With an expired session and a
configured authenticator, Get makes exactly one refresh attempt and it
precedes any HTTP request; when the refresh fails, Get returns the
refresh error and issues no request. `Post` never attempts a refresh. -/
theorem get_refreshes_once_post_never (env : Env) (c : ClientState) (now : Int)
    (path : String) (s : Session) (hs : c.session = some s)
    (hexp : isExpired s now = true) (hauth : c.authPresent = true) :
    ((clientGet env c now path).2.2.count Ev.refreshAttempt = 1 ∧
     (clientGet env c now path).2.2.head? = some Ev.refreshAttempt) ∧
    (∀ msg, env.refreshToken s.oauth1Token s.oauth1Secret = .error msg →
       (clientGet env c now path).2.1 = some ("token refresh failed: " ++ msg) ∧
       (clientGet env c now path).2.2 = [Ev.refreshAttempt]) ∧
    (clientPost env c path).2.2.count Ev.refreshAttempt = 0 := by
  obtain ⟨htr, herr⟩ := refresh_expired_trace env c now s hs hexp hauth
  refine ⟨?_, ?_, ?_⟩
  · rcases hrt : refreshTokenIfNeeded env c now with ⟨c1, err, evs⟩
    rw [hrt] at htr
    simp at htr
    subst htr
    rcases err with _ | e
    · rcases henv : env.response with m | ⟨st, eo⟩ <;>
        simp [clientGet, hrt, henv] <;> split_ifs <;> simp [List.count_cons]
    · simp [clientGet, hrt]
  · intro msg hr
    have := herr msg hr
    simp [clientGet, this]
  · rcases henv : env.response with m | ⟨st, eo⟩ <;>
      simp [clientPost, henv] <;> split_ifs <;> simp [List.count_cons]

/-- C4 witness: the amended theorem applied to the concrete expired client
with a failing refresh. -/
theorem get_refreshes_once_post_never_witness :
    ((clientGet envRefreshDown cExpired 100 "/activities").2.1 =
       some "token refresh failed: refresh down" ∧
     (clientGet envRefreshDown cExpired 100 "/activities").2.2 = [Ev.refreshAttempt]) ∧
    (clientGet envRefreshDown cExpired 100 "/activities").2.2.count Ev.refreshAttempt = 1 :=
  ⟨(get_refreshes_once_post_never envRefreshDown cExpired 100 "/activities" sExpired rfl
      (by decide) rfl).2.1 "refresh down" rfl,
   (get_refreshes_once_post_never envRefreshDown cExpired 100 "/activities" sExpired rfl
      (by decide) rfl).1.1⟩

/-- C5 counterexample: after a 401 clears the session, the next call's
expiry check does NOT treat the nil session as invalid: the refresh step
is a no-op returning nil and the following Get succeeds, issuing its
request — contradicting the claim's "treated as invalid by subsequent
expiry checks". The clearing itself and the reauthentication error do
hold. -/
theorem cleared_session_not_treated_invalid_example :
    (clientGet env401 cValid 100 "/p").1.session = none ∧
    (clientGet env401 cValid 100 "/p").2.1 = some "token expired, please reauthenticate" ∧
    refreshTokenIfNeeded env200 (clientGet env401 cValid 100 "/p").1 100 =
      ((clientGet env401 cValid 100 "/p").1, none, []) ∧
    (clientGet env200 (clientGet env401 cValid 100 "/p").1 100 "/p").2.1 = none ∧
    (clientGet env200 (clientGet env401 cValid 100 "/p").1 100 "/p").2.2 =
      [Ev.request "/p" "Bearer t2"] := by
  decide

/-- C5 amended: an HTTP 401 on Get clears the held session and returns the
reauthentication-required error without any login attempt; however the
subsequent expiry check treats the nil session as a no-op (no refresh, no
error), rather than as invalid. -/
theorem get401_clears_session (env : Env) (c : ClientState) (now : Int)
    (path : String) (s : Session) (eo : Bool) (hs : c.session = some s)
    (hexp : isExpired s now = false) (hresp : env.response = .resp 401 eo) :
    (clientGet env c now path).1.session = none ∧
    (clientGet env c now path).2.1 = some "token expired, please reauthenticate" ∧
    (clientGet env c now path).2.2 = [Ev.request path c.authHeader] ∧
    refreshTokenIfNeeded env (clientGet env c now path).1 now =
      ((clientGet env c now path).1, none, []) := by
  have hrt : refreshTokenIfNeeded env c now = (c, none, []) := by
    simp [refreshTokenIfNeeded, hs, hexp]
  have hmain : clientGet env c now path =
      (⟨none, c.authPresent, c.sessionPath, c.authHeader⟩,
       some "token expired, please reauthenticate", [Ev.request path c.authHeader]) := by
    simp [clientGet, hrt, hresp]
  rw [hmain]
  refine ⟨rfl, rfl, rfl, ?_⟩
  simp [refreshTokenIfNeeded]

/-- C5 witness: the amended theorem applied to the concrete valid client
receiving a 401. -/
theorem get401_clears_session_witness :
    (clientGet env401 cValid 100 "/p").1.session = none ∧
    (clientGet env401 cValid 100 "/p").2.1 =
      some "token expired, please reauthenticate" :=
  have h := get401_clears_session env401 cValid 100 "/p" sValid false rfl (by decide) rfl
  ⟨h.1, h.2.1⟩

/-- C6: the data-size field backfilled by `Close` equals the byte count
between end-of-header and start-of-file-CRC (the payload length, below
2^32), the finalized output is header + payload + 2 CRC bytes, and the
zero-write pipeline yields exactly the 16-byte container with
`dataSize = 0`. -/
theorem close_backfills_dataSize (d : List Nat) (hlen : d.length < 4294967296) :
    (encodeFit d).length = d.length + 16 ∧
    ((encodeFit d).drop 4).take 4 = le32 d.length ∧
    u32ofLE (le32 d.length) = d.length ∧
    ((encodeFit d).drop 14).take d.length = d ∧
    (fitClose (newFitEncoder ⟨[], 0⟩).1 (newFitEncoder ⟨[], 0⟩).2).2.1.data =
      [14, 16, 0, 45, 0, 0, 0, 0, 46, 70, 73, 84, 162, 212, 162, 212] := by
  refine ⟨?_, ?_, ?_, ?_, ?_⟩
  · rw [encodeFit_eq]; simp [finalHeader, closeHeader, le32, le16]
  · rw [encodeFit_eq]; rfl
  · simp [u32ofLE, le32, List.getD]; omega
  · rw [encodeFit_eq]
    show (d ++ le16 (hdrCRC d)).take d.length = d
    exact List.take_left d _
  · rfl

/-- C6 witness: the theorem applied to the payload `[7, 8, 9]`. -/
theorem close_backfills_dataSize_witness :
    (encodeFit [7, 8, 9]).length = [7, 8, 9].length + 16 ∧
    ((encodeFit [7, 8, 9]).drop 4).take 4 = le32 [7, 8, 9].length ∧
    u32ofLE (le32 [7, 8, 9].length) = [7, 8, 9].length ∧
    ((encodeFit [7, 8, 9]).drop 14).take [7, 8, 9].length = [7, 8, 9] ∧
    (fitClose (newFitEncoder ⟨[], 0⟩).1 (newFitEncoder ⟨[], 0⟩).2).2.1.data =
      [14, 16, 0, 45, 0, 0, 0, 0, 46, 70, 73, 84, 162, 212, 162, 212] :=
  close_backfills_dataSize [7, 8, 9] (by decide)

/-- C7 counterexample: at `now = expiresAt` (both 5), `IsExpired` returns
false, while the claim — true iff `now >= expiresAt`, and in particular
true at equality — requires true there. -/
theorem isExpired_boundary_example :
    isExpired ⟨"t1", "s1", "t2", 5⟩ 5 = false ∧ (5 : Int) ≥ 5 := by
  decide

/-- C7 amended: `IsExpired` uses Go's strict `time.Now().After`, so it is
true iff `now > expiresAt`; it is false at `expiresAt` exactly and at
`expiresAt - 1` (nanoseconds). -/
theorem isExpired_strictly_after (s : Session) (now : Int) :
    (isExpired s now = true ↔ s.expiresAt < now) ∧
    isExpired s s.expiresAt = false ∧
    isExpired s (s.expiresAt - 1) = false :=
  ⟨by simp [isExpired], by simp [isExpired], by simp [isExpired]⟩

/-- C8 counterexample: a rejected MFA code (verifier-free verifyMFA page)
and a malformed (shape-error) page produce the identical Login error
"authentication failed: verifier not found in response" — the rejection
is not distinguishable as authentication-denied. -/
theorem mfa_reject_indistinguishable_example :
    (loginRun (.ok ()) (.ok mfaLoginPage) (.ok "123456") (.ok mfaRejectPage) "" none 0).2 =
      some "authentication failed: verifier not found in response" ∧
    (loginRun (.ok ()) (.ok mfaLoginPage) (.ok "123456") (.ok malformedPage) "" none 0).2 =
      some "authentication failed: verifier not found in response" ∧
    (loginRun (.ok ()) (.ok mfaLoginPage) (.ok "123456") (.ok mfaRejectPage) "" none 0).1 =
      none :=
  ⟨rfl, rfl, rfl⟩

/-- C8 amended: when the sign-in page signals MFA with a context, a
verifyMFA response carrying an `oauth_verifier` leads Login to an
established session; a response without one (rejected code) fails with the
generic verifier-not-found error, the same error a malformed response
produces. -/
theorem mfa_login_outcomes (loginBody code mfaBody : String) (now : Int)
    (hm : hasSub ("mfa-required").toList loginBody.toList = true)
    (hctx : (mfaContextOf loginBody).isSome = true) :
    (∀ v, findCap verifierPat mfaBody.toList = some v →
       loginRun (.ok ()) (.ok loginBody) (.ok code) (.ok mfaBody) "" none now =
         (some ⟨"access_token", "access_secret", "oauth2_access_token",
                now + eightHoursNs⟩, none)) ∧
    (findCap verifierPat mfaBody.toList = none →
       loginRun (.ok ()) (.ok loginBody) (.ok code) (.ok mfaBody) "" none now =
         (none, some "authentication failed: verifier not found in response")) := by
  obtain ⟨ctx, hc⟩ := Option.isSome_iff_exists.mp hctx
  simp only [String.toList, verifierPat] at hm
  constructor
  · intro v hv
    simp only [String.toList, verifierPat] at hv
    simp [loginRun, authenticate, hm, hc, extractVerifierFromResponse, hv]
  · intro hv
    simp only [String.toList, verifierPat] at hv
    simp [loginRun, authenticate, hm, hc, extractVerifierFromResponse, hv]

/-- C8 witness: the accepted-code branch on the concrete MFA pages. -/
theorem mfa_login_outcomes_witness :
    loginRun (.ok ()) (.ok mfaLoginPage) (.ok "123456") (.ok mfaAcceptPage) "" none 0 =
      (some ⟨"access_token", "access_secret", "oauth2_access_token",
             (0 : Int) + eightHoursNs⟩, none) :=
  (mfa_login_outcomes mfaLoginPage "123456" mfaAcceptPage 0 rfl rfl).1
    ("ver99".toList) rfl

/-- C9: when the sink's Write reports an error, `FitEncoder.Write`
propagates it and leaves the running CRC and the data-size counter
untouched; the updates happen only on the success path. -/
theorem sink_error_leaves_encoder_unchanged (e : FitEnc) (p : List Nat) (n : Nat)
    (msg : String) :
    fitWriteGen e p n (some msg) = (e, n, some msg) ∧
    fitWriteGen e p n none =
      (⟨updateCRC e.crc p, e.dataSize + n, e.startPos⟩, n, none) :=
  ⟨rfl, rfl⟩

/-- C10: with a nil session, `refreshTokenIfNeeded` is a no-op returning
nil — no refresh attempt and no up-front reauthentication error — and the
request is issued with the previously configured Authorization header. -/
theorem nilSession_refresh_noop (env : Env) (c : ClientState) (now : Int)
    (path : String) (hs : c.session = none) :
    refreshTokenIfNeeded env c now = (c, none, []) ∧
    (clientGet env c now path).2.2 = [Ev.request path c.authHeader] ∧
    (∀ eo, env.response = .resp 200 eo → eo = false →
       (clientGet env c now path).2.1 = none) := by
  have hrt : refreshTokenIfNeeded env c now = (c, none, []) := by
    simp [refreshTokenIfNeeded, hs]
  refine ⟨hrt, ?_, ?_⟩
  · rcases henv : env.response with m | ⟨st, eo⟩ <;>
      simp [clientGet, hrt, henv] <;> split_ifs <;> simp
  · intro eo h he
    subst he
    simp [clientGet, hrt, h]

/-- C10 witness: the theorem applied to the concrete nil-session client
with a plain 200 response. -/
theorem nilSession_refresh_noop_witness :
    refreshTokenIfNeeded env200 cNoSession 100 = (cNoSession, none, []) ∧
    (clientGet env200 cNoSession 100 "/p").2.2 = [Ev.request "/p" "Bearer t2"] ∧
    (clientGet env200 cNoSession 100 "/p").2.1 = none :=
  have h := nilSession_refresh_noop env200 cNoSession 100 "/p" rfl
  ⟨h.1, h.2.1, h.2.2 false rfl rfl⟩

end Garmin
